import Mathlib

/-! PIO driver lab: register-access layer, millisecond delay, init and polling loop

A shallow embedding of `src/main.c`.

* The register wrappers (`_pio_set`, `_pio_clear`, `_pio_pull_up`, `_pio_set_input`,
  `_pio_set_output`) store to memory-mapped registers of one PIO instance.  A call is
  embedded as the ordered list of register stores it performs; `Pio.run` replays a list
  of stores on the state of the controller.
* `_pio_get` reads the pin-data-status register.
* `_delay_ms` is a counted loop over a 32-bit counter, embedded with fuel.
* `init` and the body of the `while (1)` loop of `main` call the board library
  (`pio_set`, `pio_get`, `delay_ms`, ...); they are embedded as the ordered list of
  library calls they issue.
-/

namespace PioDriver

/-! ## Register-access layer -/

/-- Registers of a PIO instance that `main.c` touches. -/
inductive Reg
  | PIO_PER
  | PIO_OER
  | PIO_ODR
  | PIO_SODR
  | PIO_CODR
  | PIO_PUER
  deriving DecidableEq, Repr

/-- One store `p_pio->reg = val`. -/
structure Write where
  reg : Reg
  val : Nat
  deriving DecidableEq, Repr

/-- Width of the registers and of `uint32_t`. -/
def UINT32_MOD : Nat := 4294967296

/-- State of one PIO instance: PIO-enable status, output-enable status, output data
status, pull-up enable status and the level read on the pins (`PIO_PDSR`). -/
structure Pio where
  PIO_PSR : Nat
  PIO_OSR : Nat
  PIO_ODSR : Nat
  pullup : Nat
  PIO_PDSR : Nat
  deriving DecidableEq, Repr

/-- Modelled from the spec: the reaction of the PIO controller to a store, which the `Pio`
type of `asf.h` stands for.  A set-type register ORs the written mask into its status
register (`PIO_SODR`: output data status' = output data status OR mask), a clear-type
register removes the written mask from it. -/
def Pio.write (p : Pio) (w : Write) : Pio :=
  let v := w.val % UINT32_MOD
  match w.reg with
  | Reg.PIO_PER => { p with PIO_PSR := p.PIO_PSR ||| v }
  | Reg.PIO_OER => { p with PIO_OSR := p.PIO_OSR ||| v }
  | Reg.PIO_ODR => { p with PIO_OSR := p.PIO_OSR &&& (v ^^^ (UINT32_MOD - 1)) }
  | Reg.PIO_SODR => { p with PIO_ODSR := p.PIO_ODSR ||| v }
  | Reg.PIO_CODR => { p with PIO_ODSR := p.PIO_ODSR &&& (v ^^^ (UINT32_MOD - 1)) }
  | Reg.PIO_PUER => { p with pullup := p.pullup ||| v }

/-- Replays stores in program order. -/
def Pio.run (p : Pio) (ws : List Write) : Pio :=
  ws.foldl Pio.write p

/-- Body of `_pio_set`: `p_pio->PIO_SODR = ul_mask;` -/
def _pio_set (ul_mask : Nat) : List Write :=
  [⟨Reg.PIO_SODR, ul_mask⟩]

/-- Body of `_pio_clear`: `p_pio->PIO_CODR = ul_mask;` -/
def _pio_clear (ul_mask : Nat) : List Write :=
  [⟨Reg.PIO_CODR, ul_mask⟩]

/-- Body of `_pio_pull_up`: `p_pio->PIO_PUER = ul_mask;` (the body does not read
`ul_pull_up_enable`). -/
def _pio_pull_up (ul_mask : Nat) (_ul_pull_up_enable : Nat) : List Write :=
  [⟨Reg.PIO_PUER, ul_mask⟩]

/-- Body of `_pio_set_input`: `PIO_PUER = ul_mask; PIO_ODR = ul_mask;` (the body does not read
`ul_attribute`). -/
def _pio_set_input (ul_mask : Nat) (_ul_attribute : Nat) : List Write :=
  [⟨Reg.PIO_PUER, ul_mask⟩, ⟨Reg.PIO_ODR, ul_mask⟩]

/-- Body of `_pio_set_output`: `PIO_PER = ul_mask; PIO_OER = ul_mask; PIO_SODR = ul_mask;` (the
body reads none of `ul_default_level`, `ul_multidrive_enable`, `ul_pull_up_enable`). -/
def _pio_set_output (ul_mask : Nat) (_ul_default_level : Nat)
    (_ul_multidrive_enable : Nat) (_ul_pull_up_enable : Nat) : List Write :=
  [⟨Reg.PIO_PER, ul_mask⟩, ⟨Reg.PIO_OER, ul_mask⟩, ⟨Reg.PIO_SODR, ul_mask⟩]

/-- The `pio_type_t` argument of `pio_get`; `main.c` only passes `PIO_INPUT`. -/
inductive pio_type_t
  | PIO_INPUT
  deriving DecidableEq, Repr

/-- Body of `_pio_get`: `return (p_pio->PIO_PDSR & ul_mask);` -/
def _pio_get (p_pio : Pio) (_ul_type : pio_type_t) (ul_mask : Nat) : Nat :=
  p_pio.PIO_PDSR &&& ul_mask

/-- Stores of a list that go to register `r`. -/
def writesTo (r : Reg) (ws : List Write) : List Write :=
  ws.filter (fun w => decide (w.reg = r))

/-! ## Millisecond delay -/

/-- Outcome of a run of `_delay_ms`: the returned value, the arguments of the calls of
`delay_us` in order, the final value of the counter `i`, and whether some `i++` wrapped
around `2^32`. -/
structure DelayRun where
  ret : Nat
  calls : List Nat
  i : Nat
  wrapped : Bool
  deriving DecidableEq, Repr

/-- The loop `for (...; i < ms; i++) { delay_us(1000); }` from counter value `i`, with
`calls` issued so far.  `i++` is 32-bit: `(i + 1) % 2^32`.  One unit of fuel pays for one
evaluation of the loop test. -/
def _delay_ms_loop : Nat → Nat → Nat → List Nat → Bool → Option DelayRun
  | 0, _, _, _, _ => none
  | fuel + 1, ms, i, calls, wrapped =>
    if i < ms then
      _delay_ms_loop fuel ms ((i + 1) % UINT32_MOD) (calls ++ [1000])
        (wrapped || decide (UINT32_MOD ≤ i + 1))
    else
      some { ret := 0, calls := calls, i := i, wrapped := wrapped }

/-- Body of `_delay_ms`: `i = 0`, the loop, `return 0`. -/
def _delay_ms (fuel : Nat) (ms : Nat) : Option DelayRun :=
  _delay_ms_loop fuel ms 0 [] false

/-! ## Pin definitions -/

/-- The PIO instances `PIOA` .. `PIOD`; `ID_PIOx` is identified with `PIOx`. -/
inductive PioInst
  | PIOA
  | PIOB
  | PIOC
  | PIOD
  deriving DecidableEq, Repr

def LED_PIO : PioInst := PioInst.PIOC
def LED_PIO_ID : PioInst := PioInst.PIOC
def LED_PIO_IDX : Nat := 8
def LED_PIO_IDX_MASK : Nat := (1 <<< LED_PIO_IDX) % UINT32_MOD

def LED1_PIO : PioInst := PioInst.PIOA
def LED1_PIO_ID : PioInst := PioInst.PIOA
def LED1_PIO_IDX : Nat := 0
def LED1_PIO_IDX_MASK : Nat := (1 <<< LED1_PIO_IDX) % UINT32_MOD

def BUT1_PIO : PioInst := PioInst.PIOD
def BUT1_PIO_ID : PioInst := PioInst.PIOD
def BUT1_PIO_IDX : Nat := 28
def BUT1_PIO_IDX_MASK : Nat := (1 <<< BUT1_PIO_IDX) % UINT32_MOD

def LED2_PIO : PioInst := PioInst.PIOC
def LED2_PIO_ID : PioInst := PioInst.PIOC
def LED2_PIO_IDX : Nat := 30
def LED2_PIO_IDX_MASK : Nat := (1 <<< LED2_PIO_IDX) % UINT32_MOD

def BUT2_PIO : PioInst := PioInst.PIOC
def BUT2_PIO_ID : PioInst := PioInst.PIOC
def BUT2_PIO_IDX : Nat := 31
def BUT2_PIO_IDX_MASK : Nat := (1 <<< BUT2_PIO_IDX) % UINT32_MOD

def LED3_PIO : PioInst := PioInst.PIOB
def LED3_PIO_ID : PioInst := PioInst.PIOB
def LED3_PIO_IDX : Nat := 2
def LED3_PIO_IDX_MASK : Nat := (1 <<< LED3_PIO_IDX) % UINT32_MOD

def BUT3_PIO : PioInst := PioInst.PIOA
def BUT3_PIO_ID : PioInst := PioInst.PIOA
def BUT3_PIO_IDX : Nat := 19
def BUT3_PIO_IDX_MASK : Nat := (1 <<< BUT3_PIO_IDX) % UINT32_MOD

/-! ## Calls issued by `init` and `main` -/

/-- The attribute argument of `pio_set_input`; `main.c` only passes `PIO_DEFAULT`. -/
inductive PioAttr
  | PIO_DEFAULT
  deriving DecidableEq, Repr

/-- One operation issued by `init` or `main`, with its arguments as written at the call
site.  `wdt_disable` is the store `WDT->WDT_MR = WDT_MR_WDDIS`. -/
inductive Call
  | sysclk_init
  | wdt_disable
  | pmc_enable_periph_clk (id : PioInst)
  | pio_set_output (p : PioInst) (ul_mask ul_default_level ul_multidrive_enable
      ul_pull_up_enable : Nat)
  | pio_set_input (p : PioInst) (ul_mask : Nat) (ul_attribute : PioAttr)
  | pio_pull_up (p : PioInst) (ul_mask ul_pull_up_enable : Nat)
  | pio_get (p : PioInst) (ul_type : pio_type_t) (ul_mask : Nat)
  | pio_set (p : PioInst) (ul_mask : Nat)
  | pio_clear (p : PioInst) (ul_mask : Nat)
  | delay_ms (ms : Nat)
  deriving DecidableEq, Repr

/-- Body of `init`, lines 193-222: the calls in program order. -/
def init : List Call :=
  [ Call.sysclk_init,
    Call.wdt_disable,
    Call.pmc_enable_periph_clk LED_PIO_ID,
    Call.pmc_enable_periph_clk LED1_PIO_ID,
    Call.pmc_enable_periph_clk LED2_PIO_ID,
    Call.pmc_enable_periph_clk LED3_PIO_ID,
    Call.pmc_enable_periph_clk BUT1_PIO_ID,
    Call.pmc_enable_periph_clk BUT2_PIO_ID,
    Call.pmc_enable_periph_clk BUT3_PIO_ID,
    Call.pio_set_output LED_PIO LED_PIO_IDX_MASK 0 0 0,
    Call.pio_set_output LED1_PIO LED1_PIO_IDX_MASK 0 0 0,
    Call.pio_set_output LED2_PIO LED2_PIO_IDX_MASK 0 0 0,
    Call.pio_set_output LED3_PIO LED3_PIO_IDX_MASK 0 0 0,
    Call.pio_set_input BUT1_PIO BUT1_PIO_IDX_MASK PioAttr.PIO_DEFAULT,
    Call.pio_set_input BUT2_PIO BUT2_PIO_IDX_MASK PioAttr.PIO_DEFAULT,
    Call.pio_set_input BUT3_PIO BUT3_PIO_IDX_MASK PioAttr.PIO_DEFAULT,
    Call.pio_pull_up BUT1_PIO BUT1_PIO_IDX_MASK 1,
    Call.pio_pull_up BUT2_PIO BUT2_PIO_IDX_MASK 1,
    Call.pio_pull_up BUT3_PIO BUT3_PIO_IDX_MASK 1 ]

/-- A loop `for (int i = 0; i < n; i++) body` whose body does not use `i`: `n - i` rounds
remain. -/
def forLoop (body : List Call) : Nat → List Call
  | 0 => []
  | remaining + 1 => body ++ forLoop body remaining

/-- The `if (!pio_get( BUT1_PIO, PIO_INPUT, BUT1_PIO_IDX_MASK)) { ... }` statement of the
loop, lines 233-242; `r` is the value the call of `pio_get` returns. -/
def but1_branch (r : Nat) : List Call :=
  Call.pio_get BUT1_PIO pio_type_t.PIO_INPUT BUT1_PIO_IDX_MASK ::
    (if r = 0 then
      forLoop
        [ Call.pio_set LED1_PIO LED1_PIO_IDX_MASK,
          Call.delay_ms 200,
          Call.pio_clear LED1_PIO LED1_PIO_IDX_MASK,
          Call.delay_ms 200 ] 5
        ++ [Call.pio_clear LED1_PIO LED1_PIO_IDX_MASK]
    else [])

/-- The `if (!pio_get( BUT2_PIO, ...)) { ... }` statement, lines 243-252. -/
def but2_branch (r : Nat) : List Call :=
  Call.pio_get BUT2_PIO pio_type_t.PIO_INPUT BUT2_PIO_IDX_MASK ::
    (if r = 0 then
      forLoop
        [ Call.pio_set LED2_PIO LED2_PIO_IDX_MASK,
          Call.delay_ms 200,
          Call.pio_clear LED2_PIO LED2_PIO_IDX_MASK,
          Call.delay_ms 200 ] 5
        ++ [Call.pio_clear LED2_PIO LED2_PIO_IDX_MASK]
    else [])

/-- The `if (!pio_get( BUT3_PIO, ...)) { ... }` statement, lines 253-262. -/
def but3_branch (r : Nat) : List Call :=
  Call.pio_get BUT3_PIO pio_type_t.PIO_INPUT BUT3_PIO_IDX_MASK ::
    (if r = 0 then
      forLoop
        [ Call.pio_set LED3_PIO LED3_PIO_IDX_MASK,
          Call.delay_ms 200,
          Call.pio_clear LED3_PIO LED3_PIO_IDX_MASK,
          Call.delay_ms 200 ] 5
        ++ [Call.pio_clear LED3_PIO LED3_PIO_IDX_MASK]
    else [])

/-- Values returned by the three calls of `pio_get` of one iteration. -/
structure Reads where
  but1 : Nat
  but2 : Nat
  but3 : Nat
  deriving DecidableEq, Repr

/-- One iteration of the `while (1)` loop of `main`. -/
def loopBody (r : Reads) : List Call :=
  but1_branch r.but1 ++ but2_branch r.but2 ++ but3_branch r.but3

/-- The calls `main` has issued when `n` iterations of its loop are complete: `init()`,
then the iterations in order; `reads k` are the values `pio_get` returns in iteration
`k`. -/
def main (reads : Nat → Reads) : Nat → List Call
  | 0 => init
  | n + 1 => main reads n ++ loopBody (reads n)

/-! ## Observations on a list of calls -/

/-- Pin numbers selected by a 32-bit mask. -/
def pinsOf (ul_mask : Nat) : List Nat :=
  (List.range 32).filter (fun i => ul_mask.testBit i)

/-- Pins a call configures as outputs. -/
def Call.outputPins : Call → List (PioInst × Nat)
  | Call.pio_set_output p m _ _ _ => (pinsOf m).map (fun i => (p, i))
  | _ => []

/-- Pins a call configures as inputs. -/
def Call.inputPins : Call → List (PioInst × Nat)
  | Call.pio_set_input p m _ => (pinsOf m).map (fun i => (p, i))
  | _ => []

/-- Pins whose pull-up a call enables. -/
def Call.pullUpPins : Call → List (PioInst × Nat)
  | Call.pio_pull_up p m e => if e = 0 then [] else (pinsOf m).map (fun i => (p, i))
  | _ => []

/-- Pins a call configures in any way (direction or pull-up). -/
def Call.configuredPins : Call → List (PioInst × Nat)
  | Call.pio_set_output p m _ _ _ => (pinsOf m).map (fun i => (p, i))
  | Call.pio_set_input p m _ => (pinsOf m).map (fun i => (p, i))
  | Call.pio_pull_up p m _ => (pinsOf m).map (fun i => (p, i))
  | _ => []

def outputPins (t : List Call) : List (PioInst × Nat) := (t.map Call.outputPins).flatten
def inputPins (t : List Call) : List (PioInst × Nat) := (t.map Call.inputPins).flatten
def pullUpPins (t : List Call) : List (PioInst × Nat) := (t.map Call.pullUpPins).flatten
def configuredPins (t : List Call) : List (PioInst × Nat) :=
  (t.map Call.configuredPins).flatten

/-- Configuration of the pins at some point of the program: the pins that are outputs,
the pins that are inputs and the pins whose pull-up is enabled. -/
structure PinCfg where
  outputs : List (PioInst × Nat)
  inputs : List (PioInst × Nat)
  pullups : List (PioInst × Nat)
  deriving DecidableEq, Repr

/-- Pins of `s` that are not in `del`. -/
def pinsRemove (s del : List (PioInst × Nat)) : List (PioInst × Nat) :=
  s.filter (fun x => !decide (x ∈ del))

/-- Pins of `s` together with the pins `new`. -/
def pinsAdd (s new : List (PioInst × Nat)) : List (PioInst × Nat) :=
  pinsRemove s new ++ new

/-- Modelled from the spec: the effect of the board library's `pio_set_output`,
`pio_set_input` and `pio_pull_up` on the pin configuration; their bodies are not under
`src/`.  The effect follows the contract the doc comments of `main.c` give (lines 35-76,
121-124): `pio_set_output` makes the masked pins outputs and activates their pull-up only
if `ul_pull_up_enable` is non-zero; `pio_set_input` makes them inputs, and with
`PIO_DEFAULT` (no attribute) their pull-up is not active; `pio_pull_up` enables their
pull-up if `ul_pull_up_enable` is non-zero and disables it otherwise.  A later call
overrides an earlier one on the same pin. -/
def PinCfg.step (c : PinCfg) : Call → PinCfg
  | Call.pio_set_output p m _ _ pu =>
    { outputs := pinsAdd c.outputs ((pinsOf m).map (fun i => (p, i))),
      inputs := pinsRemove c.inputs ((pinsOf m).map (fun i => (p, i))),
      pullups :=
        if pu = 0 then pinsRemove c.pullups ((pinsOf m).map (fun i => (p, i)))
        else pinsAdd c.pullups ((pinsOf m).map (fun i => (p, i))) }
  | Call.pio_set_input p m PioAttr.PIO_DEFAULT =>
    { outputs := pinsRemove c.outputs ((pinsOf m).map (fun i => (p, i))),
      inputs := pinsAdd c.inputs ((pinsOf m).map (fun i => (p, i))),
      pullups := pinsRemove c.pullups ((pinsOf m).map (fun i => (p, i))) }
  | Call.pio_pull_up p m e =>
    { outputs := c.outputs,
      inputs := c.inputs,
      pullups :=
        if e = 0 then pinsRemove c.pullups ((pinsOf m).map (fun i => (p, i)))
        else pinsAdd c.pullups ((pinsOf m).map (fun i => (p, i))) }
  | _ => c

/-- Pin configuration after the calls `t`, in program order, from configuration `c`. -/
def PinCfg.run (c : PinCfg) (t : List Call) : PinCfg :=
  t.foldl PinCfg.step c

/-- No pin configured yet. -/
def PinCfg.unconfigured : PinCfg :=
  { outputs := [], inputs := [], pullups := [] }

/-- The set and clear operations of a list addressed to pin mask `m` of instance `p`. -/
def ledWrites (p : PioInst) (m : Nat) (t : List Call) : List Call :=
  t.filter (fun c => decide (c = Call.pio_set p m) || decide (c = Call.pio_clear p m))

/-- Whether a call is a read of a pin (`pio_get`), which writes no register and waits
for nothing. -/
def Call.isRead : Call → Bool
  | Call.pio_get _ _ _ => true
  | _ => false

/-- Number of `pio_set p m` in a list. -/
def countSet (p : PioInst) (m : Nat) (t : List Call) : Nat :=
  t.count (Call.pio_set p m)

/-- Number of `pio_clear p m` in a list. -/
def countClear (p : PioInst) (m : Nat) (t : List Call) : Nat :=
  t.count (Call.pio_clear p m)

/-- Total of the arguments of the `delay_ms` calls of a list, in milliseconds. -/
def totalDelay : List Call → Nat
  | [] => 0
  | Call.delay_ms ms :: t => ms + totalDelay t
  | _ :: t => totalDelay t

/-- The blink sequence written out: five times on, 200 ms, off, 200 ms, then off. -/
def blinkSeq (p : PioInst) (m : Nat) : List Call :=
  [ Call.pio_set p m, Call.delay_ms 200, Call.pio_clear p m, Call.delay_ms 200,
    Call.pio_set p m, Call.delay_ms 200, Call.pio_clear p m, Call.delay_ms 200,
    Call.pio_set p m, Call.delay_ms 200, Call.pio_clear p m, Call.delay_ms 200,
    Call.pio_set p m, Call.delay_ms 200, Call.pio_clear p m, Call.delay_ms 200,
    Call.pio_set p m, Call.delay_ms 200, Call.pio_clear p m, Call.delay_ms 200,
    Call.pio_clear p m ]

/-! ## Helper lemmas -/

theorem delay_ms_loop_run (ms k : Nat) :
    ∀ (fuel i : Nat) (calls : List Nat) (w : Bool),
      i + k = ms → ms < UINT32_MOD → k < fuel →
      _delay_ms_loop fuel ms i calls w
        = some { ret := 0, calls := calls ++ List.replicate k 1000, i := ms, wrapped := w } := by
  induction k with
  | zero =>
    intro fuel i calls w hik _ hfuel
    obtain ⟨f, rfl⟩ : ∃ f, fuel = f + 1 := ⟨fuel - 1, by omega⟩
    have hi : i = ms := by omega
    subst hi
    simp [_delay_ms_loop]
  | succ k ih =>
    intro fuel i calls w hik hms hfuel
    obtain ⟨f, rfl⟩ : ∃ f, fuel = f + 1 := ⟨fuel - 1, by omega⟩
    have hlt : i < ms := by omega
    have hmod : (i + 1) % UINT32_MOD = i + 1 := Nat.mod_eq_of_lt (by omega)
    have hnw : ¬ UINT32_MOD ≤ i + 1 := by omega
    rw [_delay_ms_loop, if_pos hlt, hmod, ih f (i + 1) (calls ++ [1000]) _ (by omega) hms (by omega)]
    simp [hnw, List.replicate_succ]

theorem mem_pinsRemove (s del : List (PioInst × Nat)) (x : PioInst × Nat) :
    x ∈ pinsRemove s del ↔ x ∈ s ∧ x ∉ del := by
  simp [pinsRemove]

theorem mem_pinsAdd (s new : List (PioInst × Nat)) (x : PioInst × Nat) :
    x ∈ pinsAdd s new ↔ x ∈ s ∨ x ∈ new := by
  simp only [pinsAdd, List.mem_append, mem_pinsRemove]
  tauto

theorem ledWrites_append (p : PioInst) (m : Nat) (a b : List Call) :
    ledWrites p m (a ++ b) = ledWrites p m a ++ ledWrites p m b := by
  simp [ledWrites]

/-! ## Register-access layer: theorems -/

/-- C4, evaluated on the code: `_pio_get` returns the masked bits of `PIO_PDSR` themselves.
With pin 28 high and the mask of button 1 the result is `268435456`, which is neither `0`
nor `1`. -/
theorem pio_get_returns_masked_bits :
    (∀ (p_pio : Pio) (t : pio_type_t) (ul_mask : Nat),
      _pio_get p_pio t ul_mask = p_pio.PIO_PDSR &&& ul_mask) ∧
    _pio_get { PIO_PSR := 0, PIO_OSR := 0, PIO_ODSR := 0, pullup := 0,
               PIO_PDSR := 268435456 } pio_type_t.PIO_INPUT BUT1_PIO_IDX_MASK = 268435456 ∧
    _pio_get { PIO_PSR := 0, PIO_OSR := 0, PIO_ODSR := 0, pullup := 0,
               PIO_PDSR := 268435456 } pio_type_t.PIO_INPUT BUT1_PIO_IDX_MASK ≠ 1 ∧
    (268435456 : Nat) &&& BUT1_PIO_IDX_MASK ≠ 0 := by
  refine ⟨fun _ _ _ => rfl, by decide, by decide, by decide⟩

/-- C5, evaluated on the code: with `ul_default_level = 0`, `_pio_set_output` stores the
mask to `PIO_PER`, `PIO_OER` and `PIO_SODR`; it stores nothing to `PIO_CODR`, and on a
controller whose outputs are all low the pin of LED 1 ends high. -/
theorem pio_set_output_level0_writes_sodr :
    (∀ (ul_mask md pu : Nat),
      _pio_set_output ul_mask 0 md pu
        = [⟨Reg.PIO_PER, ul_mask⟩, ⟨Reg.PIO_OER, ul_mask⟩, ⟨Reg.PIO_SODR, ul_mask⟩] ∧
      writesTo Reg.PIO_SODR (_pio_set_output ul_mask 0 md pu) = [⟨Reg.PIO_SODR, ul_mask⟩] ∧
      writesTo Reg.PIO_CODR (_pio_set_output ul_mask 0 md pu) = []) ∧
    ((Pio.run { PIO_PSR := 0, PIO_OSR := 0, PIO_ODSR := 0, pullup := 0, PIO_PDSR := 0 }
        (_pio_set_output LED1_PIO_IDX_MASK 0 0 0)).PIO_ODSR.testBit LED1_PIO_IDX = true) := by
  refine ⟨fun _ _ _ => ⟨rfl, ?_, ?_⟩, by decide⟩ <;> simp [writesTo, _pio_set_output]

/-- C6, evaluated on the code: with `ul_pull_up_enable = 0`, `_pio_pull_up` still stores
the mask to `PIO_PUER`, and the pull-up of button 1 ends enabled. -/
theorem pio_pull_up_enable0_writes_puer :
    (∀ (ul_mask : Nat),
      _pio_pull_up ul_mask 0 = [⟨Reg.PIO_PUER, ul_mask⟩] ∧
      writesTo Reg.PIO_PUER (_pio_pull_up ul_mask 0) = [⟨Reg.PIO_PUER, ul_mask⟩]) ∧
    ((Pio.run { PIO_PSR := 0, PIO_OSR := 0, PIO_ODSR := 0, pullup := 0, PIO_PDSR := 0 }
        (_pio_pull_up BUT1_PIO_IDX_MASK 0)).pullup.testBit BUT1_PIO_IDX = true) := by
  refine ⟨fun _ => ⟨rfl, ?_⟩, by decide⟩
  simp [writesTo, _pio_pull_up]

/-- C7: for every state `p` of the controller and every 32-bit mask, `_pio_set` performs
exactly one store, of `ul_mask` to `PIO_SODR`, and no store to any other register; on the
controller every status other than the output data status is unchanged, the output data
status becomes `old OR mask`, so every pin in the mask ends high and every pin outside
it keeps its level; and running `_pio_set` twice with the same mask gives the same state
as running it once. -/
theorem pio_set_one_sodr_write_frame (p : Pio) (ul_mask : Nat) (h : ul_mask < UINT32_MOD) :
    _pio_set ul_mask = [⟨Reg.PIO_SODR, ul_mask⟩] ∧
    (_pio_set ul_mask).length = 1 ∧
    (∀ r : Reg, r ≠ Reg.PIO_SODR → writesTo r (_pio_set ul_mask) = []) ∧
    (p.run (_pio_set ul_mask)).PIO_PSR = p.PIO_PSR ∧
    (p.run (_pio_set ul_mask)).PIO_OSR = p.PIO_OSR ∧
    (p.run (_pio_set ul_mask)).pullup = p.pullup ∧
    (p.run (_pio_set ul_mask)).PIO_PDSR = p.PIO_PDSR ∧
    (p.run (_pio_set ul_mask)).PIO_ODSR = p.PIO_ODSR ||| ul_mask ∧
    (∀ i : Nat, ul_mask.testBit i = true →
      (p.run (_pio_set ul_mask)).PIO_ODSR.testBit i = true) ∧
    (∀ i : Nat, ul_mask.testBit i = false →
      (p.run (_pio_set ul_mask)).PIO_ODSR.testBit i = p.PIO_ODSR.testBit i) ∧
    (p.run (_pio_set ul_mask)).run (_pio_set ul_mask) = p.run (_pio_set ul_mask) ∧
    p.run (_pio_set ul_mask ++ _pio_set ul_mask) = p.run (_pio_set ul_mask) := by
  have hmod : ul_mask % UINT32_MOD = ul_mask := Nat.mod_eq_of_lt h
  have hrun : p.run (_pio_set ul_mask) = { p with PIO_ODSR := p.PIO_ODSR ||| ul_mask } := by
    simp [Pio.run, _pio_set, Pio.write, hmod]
  have hidem : ∀ q : Pio, (q.run (_pio_set ul_mask)).run (_pio_set ul_mask)
      = q.run (_pio_set ul_mask) := by
    intro q
    simp [Pio.run, _pio_set, Pio.write, hmod, Nat.lor_assoc]
  refine ⟨rfl, rfl, ?_, ?_, ?_, ?_, ?_, ?_, ?_, ?_, hidem p, ?_⟩
  · intro r hr
    simp only [writesTo, _pio_set, List.filter_cons, List.filter_nil]
    rw [if_neg]
    simpa using fun e => hr e.symm
  · rw [hrun]
  · rw [hrun]
  · rw [hrun]
  · rw [hrun]
  · rw [hrun]
  · intro i hi
    rw [hrun]
    simp [Nat.testBit_lor, hi]
  · intro i hi
    rw [hrun]
    simp [Nat.testBit_lor, hi]
  · rw [← hidem p]
    simp [Pio.run, List.foldl_append]

/-- Witness of C7 at `PIO_ODSR = 4` (pin 2 high) and the mask of LED 1. -/
theorem pio_set_one_sodr_write_frame_witness :
    LED1_PIO_IDX_MASK < UINT32_MOD ∧
    (Pio.run { PIO_PSR := 0, PIO_OSR := 5, PIO_ODSR := 4, pullup := 0, PIO_PDSR := 0 }
      (_pio_set LED1_PIO_IDX_MASK)).PIO_ODSR = 4 ||| LED1_PIO_IDX_MASK :=
  ⟨by decide,
   (pio_set_one_sodr_write_frame
      { PIO_PSR := 0, PIO_OSR := 5, PIO_ODSR := 4, pullup := 0, PIO_PDSR := 0 }
      LED1_PIO_IDX_MASK (by decide)).2.2.2.2.2.2.2.1⟩

/-! ## Millisecond delay: theorem -/

/-- C8: for every 32-bit `ms` (0 and `2^32 - 1` included) and every fuel above `ms`,
`_delay_ms` returns: it returns 0 after exactly `ms` calls `delay_us(1000)`, a requested
wait of `ms * 1000` microseconds in total, the counter ends at `ms`, and no `i++` wrapped
around. -/
theorem delay_ms_terminates_exact (ms fuel : Nat) (hms : ms < UINT32_MOD) (hfuel : ms < fuel) :
    ∃ r : DelayRun, _delay_ms fuel ms = some r ∧
      r.ret = 0 ∧
      r.calls = List.replicate ms 1000 ∧
      r.calls.length = ms ∧
      r.calls.sum = ms * 1000 ∧
      r.i = ms ∧
      r.wrapped = false := by
  refine ⟨{ ret := 0, calls := List.replicate ms 1000, i := ms, wrapped := false }, ?_,
    rfl, rfl, by simp, by simp, rfl, rfl⟩
  have := delay_ms_loop_run ms ms fuel 0 [] false (by omega) hms hfuel
  simpa [_delay_ms] using this

/-- Witness of C8 at `ms = 3` with fuel 4. -/
theorem delay_ms_terminates_exact_witness :
    (3 : Nat) < UINT32_MOD ∧ (3 : Nat) < 4 ∧
    ∃ r : DelayRun, _delay_ms 4 3 = some r ∧ r.ret = 0 ∧ r.calls = List.replicate 3 1000 ∧
      r.calls.length = 3 ∧ r.calls.sum = 3 * 1000 ∧ r.i = 3 ∧ r.wrapped = false :=
  ⟨by decide, by decide, delay_ms_terminates_exact 3 4 (by decide) (by decide)⟩

/-! ## The polling loop: theorems -/

/-- C1: in an iteration of the loop of `main` in which the read of button k returns 0,
the statement for button k issues, after the read, exactly the blink sequence on LED k
(five times set, 200 ms, clear, 200 ms, then one clear); the set and clear operations of
the whole iteration addressed to LED k are exactly those of that sequence; and the
sequence has 5 sets and 6 clears of the LED mask and 2000 ms of delay. -/
theorem pressed_button_blinks_led (r : Reads) :
    (∀ (reads : Nat → Reads) (n : Nat), reads n = r →
      main reads (n + 1) = main reads n ++ loopBody r) ∧
    loopBody r = but1_branch r.but1 ++ but2_branch r.but2 ++ but3_branch r.but3 ∧
    (r.but1 = 0 →
      but1_branch r.but1
        = Call.pio_get BUT1_PIO pio_type_t.PIO_INPUT BUT1_PIO_IDX_MASK
            :: blinkSeq LED1_PIO LED1_PIO_IDX_MASK ∧
      ledWrites LED1_PIO LED1_PIO_IDX_MASK (loopBody r)
        = ledWrites LED1_PIO LED1_PIO_IDX_MASK (blinkSeq LED1_PIO LED1_PIO_IDX_MASK)) ∧
    (r.but2 = 0 →
      but2_branch r.but2
        = Call.pio_get BUT2_PIO pio_type_t.PIO_INPUT BUT2_PIO_IDX_MASK
            :: blinkSeq LED2_PIO LED2_PIO_IDX_MASK ∧
      ledWrites LED2_PIO LED2_PIO_IDX_MASK (loopBody r)
        = ledWrites LED2_PIO LED2_PIO_IDX_MASK (blinkSeq LED2_PIO LED2_PIO_IDX_MASK)) ∧
    (r.but3 = 0 →
      but3_branch r.but3
        = Call.pio_get BUT3_PIO pio_type_t.PIO_INPUT BUT3_PIO_IDX_MASK
            :: blinkSeq LED3_PIO LED3_PIO_IDX_MASK ∧
      ledWrites LED3_PIO LED3_PIO_IDX_MASK (loopBody r)
        = ledWrites LED3_PIO LED3_PIO_IDX_MASK (blinkSeq LED3_PIO LED3_PIO_IDX_MASK)) ∧
    (∀ (p : PioInst) (m : Nat),
      countSet p m (blinkSeq p m) = 5 ∧
      countClear p m (blinkSeq p m) = 6 ∧
      totalDelay (blinkSeq p m) = 2000 ∧
      (blinkSeq p m).length = 21 ∧
      ledWrites p m (blinkSeq p m)
        = [ Call.pio_set p m, Call.pio_clear p m, Call.pio_set p m, Call.pio_clear p m,
            Call.pio_set p m, Call.pio_clear p m, Call.pio_set p m, Call.pio_clear p m,
            Call.pio_set p m, Call.pio_clear p m, Call.pio_clear p m ]) := by
  obtain ⟨a, b, c⟩ := r
  refine ⟨fun reads n h => by rw [← h]; rfl, rfl, ?_, ?_, ?_, ?_⟩
  · intro h
    simp only at h
    subst h
    refine ⟨by show but1_branch 0 = _; decide, ?_⟩
    by_cases hb : b = 0 <;> by_cases hc : c = 0 <;>
      simp only [loopBody, but2_branch, but3_branch, hb, hc, if_true, if_false,
        ledWrites_append] <;> decide
  · intro h
    simp only at h
    subst h
    refine ⟨by show but2_branch 0 = _; decide, ?_⟩
    by_cases ha : a = 0 <;> by_cases hc : c = 0 <;>
      simp only [loopBody, but1_branch, but3_branch, ha, hc, if_true, if_false,
        ledWrites_append] <;> decide
  · intro h
    simp only at h
    subst h
    refine ⟨by show but3_branch 0 = _; decide, ?_⟩
    by_cases ha : a = 0 <;> by_cases hb : b = 0 <;>
      simp only [loopBody, but1_branch, but2_branch, ha, hb, if_true, if_false,
        ledWrites_append] <;> decide
  · intro p m
    refine ⟨?_, ?_, rfl, rfl, ?_⟩
    · simp [countSet, blinkSeq]
    · simp [countClear, blinkSeq]
    · simp [ledWrites, blinkSeq]

/-- Witness of C1: button 2 pressed, buttons 1 and 3 released. -/
theorem pressed_button_blinks_led_witness :
    (Reads.mk 268435456 0 524288).but2 = 0 ∧
    but2_branch (Reads.mk 268435456 0 524288).but2
      = Call.pio_get BUT2_PIO pio_type_t.PIO_INPUT BUT2_PIO_IDX_MASK
          :: blinkSeq LED2_PIO LED2_PIO_IDX_MASK ∧
    ledWrites LED2_PIO LED2_PIO_IDX_MASK (loopBody (Reads.mk 268435456 0 524288))
      = ledWrites LED2_PIO LED2_PIO_IDX_MASK (blinkSeq LED2_PIO LED2_PIO_IDX_MASK) :=
  ⟨rfl, (pressed_button_blinks_led (Reads.mk 268435456 0 524288)).2.2.2.1 rfl⟩

/-- C2: in an iteration in which the read of button k returns a non-zero value, the
statement for button k issues the read and nothing else, and the iteration has no set or
clear addressed to LED k; if all three reads are non-zero the iteration consists of the
three reads only: no register write and no delay. -/
theorem released_button_leaves_led (r : Reads) :
    (r.but1 ≠ 0 →
      but1_branch r.but1 = [Call.pio_get BUT1_PIO pio_type_t.PIO_INPUT BUT1_PIO_IDX_MASK] ∧
      ledWrites LED1_PIO LED1_PIO_IDX_MASK (loopBody r) = []) ∧
    (r.but2 ≠ 0 →
      but2_branch r.but2 = [Call.pio_get BUT2_PIO pio_type_t.PIO_INPUT BUT2_PIO_IDX_MASK] ∧
      ledWrites LED2_PIO LED2_PIO_IDX_MASK (loopBody r) = []) ∧
    (r.but3 ≠ 0 →
      but3_branch r.but3 = [Call.pio_get BUT3_PIO pio_type_t.PIO_INPUT BUT3_PIO_IDX_MASK] ∧
      ledWrites LED3_PIO LED3_PIO_IDX_MASK (loopBody r) = []) ∧
    (r.but1 ≠ 0 → r.but2 ≠ 0 → r.but3 ≠ 0 →
      loopBody r
        = [ Call.pio_get BUT1_PIO pio_type_t.PIO_INPUT BUT1_PIO_IDX_MASK,
            Call.pio_get BUT2_PIO pio_type_t.PIO_INPUT BUT2_PIO_IDX_MASK,
            Call.pio_get BUT3_PIO pio_type_t.PIO_INPUT BUT3_PIO_IDX_MASK ] ∧
      (loopBody r).filter (fun c => !c.isRead) = [] ∧
      totalDelay (loopBody r) = 0) := by
  obtain ⟨a, b, c⟩ := r
  refine ⟨?_, ?_, ?_, ?_⟩
  · intro h
    simp only at h
    refine ⟨by simp [but1_branch, h], ?_⟩
    by_cases hb : b = 0 <;> by_cases hc : c = 0 <;>
      simp only [loopBody, but1_branch, but2_branch, but3_branch, h, hb, hc, if_true,
        if_false, ledWrites_append] <;> decide
  · intro h
    simp only at h
    refine ⟨by simp [but2_branch, h], ?_⟩
    by_cases ha : a = 0 <;> by_cases hc : c = 0 <;>
      simp only [loopBody, but1_branch, but2_branch, but3_branch, h, ha, hc, if_true,
        if_false, ledWrites_append] <;> decide
  · intro h
    simp only at h
    refine ⟨by simp [but3_branch, h], ?_⟩
    by_cases ha : a = 0 <;> by_cases hb : b = 0 <;>
      simp only [loopBody, but1_branch, but2_branch, but3_branch, h, ha, hb, if_true,
        if_false, ledWrites_append] <;> decide
  · intro ha hb hc
    simp only at ha hb hc
    have hbody : loopBody ⟨a, b, c⟩
        = [ Call.pio_get BUT1_PIO pio_type_t.PIO_INPUT BUT1_PIO_IDX_MASK,
            Call.pio_get BUT2_PIO pio_type_t.PIO_INPUT BUT2_PIO_IDX_MASK,
            Call.pio_get BUT3_PIO pio_type_t.PIO_INPUT BUT3_PIO_IDX_MASK ] := by
      simp [loopBody, but1_branch, but2_branch, but3_branch, ha, hb, hc]
    rw [hbody]
    exact ⟨rfl, by decide, by decide⟩

/-- Witness of C2: all three buttons released (each read returns the pin mask). -/
theorem released_button_leaves_led_witness :
    (Reads.mk 268435456 2147483648 524288).but1 ≠ 0 ∧
    (Reads.mk 268435456 2147483648 524288).but2 ≠ 0 ∧
    (Reads.mk 268435456 2147483648 524288).but3 ≠ 0 ∧
    loopBody (Reads.mk 268435456 2147483648 524288)
      = [ Call.pio_get BUT1_PIO pio_type_t.PIO_INPUT BUT1_PIO_IDX_MASK,
          Call.pio_get BUT2_PIO pio_type_t.PIO_INPUT BUT2_PIO_IDX_MASK,
          Call.pio_get BUT3_PIO pio_type_t.PIO_INPUT BUT3_PIO_IDX_MASK ] ∧
    (loopBody (Reads.mk 268435456 2147483648 524288)).filter (fun c => !c.isRead) = [] ∧
    totalDelay (loopBody (Reads.mk 268435456 2147483648 524288)) = 0 :=
  ⟨by decide, by decide, by decide,
   (released_button_leaves_led (Reads.mk 268435456 2147483648 524288)).2.2.2
     (by decide) (by decide) (by decide)⟩

/-! ## Initialization: theorems -/

/-- C3 as stated fails: `init` also configures pin 8 of PIOC (the on-board LED,
`LED_PIO` / `LED_PIO_IDX`) as an output, a pin outside the three LED pins paired with the
buttons and outside the six pins the claim allows. -/
theorem init_configures_pc8_output :
    (PioInst.PIOC, 8) ∈ outputPins init ∧
    (PioInst.PIOC, 8) ∉ [(PioInst.PIOA, 0), (PioInst.PIOC, 30), (PioInst.PIOB, 2)] ∧
    (PioInst.PIOC, 8) ∈ configuredPins init ∧
    (PioInst.PIOC, 8) ∉ [(PioInst.PIOA, 0), (PioInst.PIOC, 30), (PioInst.PIOB, 2),
      (PioInst.PIOD, 28), (PioInst.PIOC, 31), (PioInst.PIOA, 19)] := by
  decide

/-- C3 amended: `init` configures as outputs exactly four pins, the on-board LED (PIOC,8)
and the three LEDs paired with the buttons (PIOA,0), (PIOC,30), (PIOB,2); it configures as
inputs exactly the three button pins (PIOD,28), (PIOC,31), (PIOA,19), and enables the
pull-up of exactly those three; no pin outside these seven is configured.  This holds of
the calls `init` issues and of the pin configuration when `init` returns, where a later
call overrides an earlier one: from no pin configured the result is exactly these sets,
and from any configuration `c0` the four LED pins end as outputs without pull-up, the
three button pins end as inputs with pull-up, and every other pin keeps what it had. -/
theorem init_configures_four_outputs_three_inputs :
    outputPins init
      = [(PioInst.PIOC, 8), (PioInst.PIOA, 0), (PioInst.PIOC, 30), (PioInst.PIOB, 2)] ∧
    outputPins init
      = [( LED_PIO, LED_PIO_IDX), ( LED1_PIO, LED1_PIO_IDX), ( LED2_PIO, LED2_PIO_IDX),
         ( LED3_PIO, LED3_PIO_IDX)] ∧
    inputPins init = [(PioInst.PIOD, 28), (PioInst.PIOC, 31), (PioInst.PIOA, 19)] ∧
    inputPins init
      = [( BUT1_PIO, BUT1_PIO_IDX), ( BUT2_PIO, BUT2_PIO_IDX), ( BUT3_PIO, BUT3_PIO_IDX)] ∧
    pullUpPins init = [(PioInst.PIOD, 28), (PioInst.PIOC, 31), (PioInst.PIOA, 19)] ∧
    (∀ x : PioInst × Nat, x ∈ configuredPins init ↔
      x ∈ [(PioInst.PIOC, 8), (PioInst.PIOA, 0), (PioInst.PIOC, 30), (PioInst.PIOB, 2),
           (PioInst.PIOD, 28), (PioInst.PIOC, 31), (PioInst.PIOA, 19)]) ∧
    PinCfg.run PinCfg.unconfigured init
      = { outputs :=
            [(PioInst.PIOC, 8), (PioInst.PIOA, 0), (PioInst.PIOC, 30), (PioInst.PIOB, 2)],
          inputs := [(PioInst.PIOD, 28), (PioInst.PIOC, 31), (PioInst.PIOA, 19)],
          pullups := [(PioInst.PIOD, 28), (PioInst.PIOC, 31), (PioInst.PIOA, 19)] } ∧
    (∀ (c0 : PinCfg) (x : PioInst × Nat),
      (x ∈ (PinCfg.run c0 init).outputs ↔
        x ∈ [(PioInst.PIOC, 8), (PioInst.PIOA, 0), (PioInst.PIOC, 30), (PioInst.PIOB, 2)] ∨
        (x ∈ c0.outputs ∧
          x ∉ [(PioInst.PIOD, 28), (PioInst.PIOC, 31), (PioInst.PIOA, 19)])) ∧
      (x ∈ (PinCfg.run c0 init).inputs ↔
        x ∈ [(PioInst.PIOD, 28), (PioInst.PIOC, 31), (PioInst.PIOA, 19)] ∨
        (x ∈ c0.inputs ∧
          x ∉ [(PioInst.PIOC, 8), (PioInst.PIOA, 0), (PioInst.PIOC, 30),
               (PioInst.PIOB, 2)])) ∧
      (x ∈ (PinCfg.run c0 init).pullups ↔
        x ∈ [(PioInst.PIOD, 28), (PioInst.PIOC, 31), (PioInst.PIOA, 19)] ∨
        (x ∈ c0.pullups ∧
          x ∉ [(PioInst.PIOC, 8), (PioInst.PIOA, 0), (PioInst.PIOC, 30),
               (PioInst.PIOB, 2)]))) := by
  refine ⟨by decide, by decide, by decide, by decide, by decide, ?_, by decide, ?_⟩
  · have h : configuredPins init
        = [(PioInst.PIOC, 8), (PioInst.PIOA, 0), (PioInst.PIOC, 30), (PioInst.PIOB, 2),
           (PioInst.PIOD, 28), (PioInst.PIOC, 31), (PioInst.PIOA, 19),
           (PioInst.PIOD, 28), (PioInst.PIOC, 31), (PioInst.PIOA, 19)] := by decide
    intro x
    rw [h]
    simp only [List.mem_cons, List.mem_singleton, List.not_mem_nil, or_false]
    tauto
  · intro c0 x
    have h0 : pinsOf LED_PIO_IDX_MASK = [8] := by decide
    have h1 : pinsOf LED1_PIO_IDX_MASK = [0] := by decide
    have h2 : pinsOf LED2_PIO_IDX_MASK = [30] := by decide
    have h3 : pinsOf LED3_PIO_IDX_MASK = [2] := by decide
    have h4 : pinsOf BUT1_PIO_IDX_MASK = [28] := by decide
    have h5 : pinsOf BUT2_PIO_IDX_MASK = [31] := by decide
    have h6 : pinsOf BUT3_PIO_IDX_MASK = [19] := by decide
    simp only [PinCfg.run, init, List.foldl, PinCfg.step, h0, h1, h2, h3, h4, h5, h6,
      List.map_cons, List.map_nil, if_true, if_false, mem_pinsRemove, mem_pinsAdd,
      LED_PIO, LED1_PIO, LED2_PIO, LED3_PIO, BUT1_PIO, BUT2_PIO, BUT3_PIO,
      List.mem_cons, List.mem_singleton, List.not_mem_nil, or_false, one_ne_zero]
    by_cases e1 : x = (PioInst.PIOD, 28)
    · subst e1
      simp
    by_cases e2 : x = (PioInst.PIOC, 31)
    · subst e2
      simp
    by_cases e3 : x = (PioInst.PIOA, 19)
    · subst e3
      simp
    by_cases e4 : x = (PioInst.PIOC, 8)
    · subst e4
      simp
    by_cases e5 : x = (PioInst.PIOA, 0)
    · subst e5
      simp
    by_cases e6 : x = (PioInst.PIOC, 30)
    · subst e6
      simp
    by_cases e7 : x = (PioInst.PIOB, 2)
    · subst e7
      simp
    simp [e1, e2, e3, e4, e5, e6, e7]

end PioDriver
